import Mathlib

/-!
Shallow embedding of the parallel file analyzer (`final_project`):
error taxonomy, analysis records, the per-file analyzer, the progress
tracker, the worker-pool queue, file discovery and the progress bar,
with theorems checking the specification's claims against it.
-/

/-! ## Error taxonomy (`src/error.rs`) -/

/-- The OS-level I/O error categories (`std::io::ErrorKind`) that the
conversion in `error.rs` distinguishes, plus representative members of
the catch-all arm. -/
inductive IoErrorKind where
  | NotFound
  | PermissionDenied
  | InvalidFilename
  | InvalidInput
  | InvalidData
  | StorageFull
  | OutOfMemory
  | NotADirectory
  | IsADirectory
  | Interrupted
  | UnexpectedEof
  | TimedOut
  | WouldBlock
  | Unsupported
  | OtherKind
  deriving DecidableEq, Repr

/-- An OS-level I/O error: a category plus its detail string
(`err.to_string()` is modelled by the `msg` field). -/
structure IoErr where
  kind : IoErrorKind
  msg : String
  deriving DecidableEq, Repr

/-- `ProcessingError` from `error.rs`: the application's error taxonomy,
each variant carrying a human-readable detail string. -/
inductive ProcessingError where
  | IoError (msg : String)
  | FileNotFound (path : String)
  | PermissionDenied (path : String)
  | ParseError (msg : String)
  | DirectoryError (msg : String)
  | Cancelled (msg : String)
  | InvalidPath (path : String)
  | CorruptedFile (path : String)
  | SystemResource (msg : String)
  | SymlinkError (msg : String)
  deriving DecidableEq, Repr

/-- The `Display` implementation for `ProcessingError` in `error.rs`. -/
def displayError : ProcessingError → String
  | ProcessingError.IoError msg => "IO Error: " ++ msg
  | ProcessingError.FileNotFound path => "File not found: " ++ path
  | ProcessingError.PermissionDenied path => "Permission denied: " ++ path
  | ProcessingError.ParseError msg => "Parse error: " ++ msg
  | ProcessingError.DirectoryError msg => "Directory error: " ++ msg
  | ProcessingError.Cancelled msg => "Cancelled: " ++ msg
  | ProcessingError.InvalidPath path => "Invalid path: " ++ path
  | ProcessingError.CorruptedFile path => "Corrupted or unreadable file: " ++ path
  | ProcessingError.SystemResource msg => "System resource error: " ++ msg
  | ProcessingError.SymlinkError msg => "Symbolic link error: " ++ msg

/-- `impl From<io::Error> for ProcessingError` in `error.rs`: the match
on `err.kind()`, every arm carrying `err.to_string()`. -/
def processingErrorFromIo (e : IoErr) : ProcessingError :=
  match e.kind with
  | IoErrorKind.NotFound => ProcessingError.FileNotFound e.msg
  | IoErrorKind.PermissionDenied => ProcessingError.PermissionDenied e.msg
  | IoErrorKind.InvalidFilename => ProcessingError.InvalidPath e.msg
  | IoErrorKind.InvalidInput => ProcessingError.InvalidPath e.msg
  | IoErrorKind.InvalidData => ProcessingError.CorruptedFile e.msg
  | IoErrorKind.StorageFull => ProcessingError.SystemResource e.msg
  | IoErrorKind.OutOfMemory => ProcessingError.SystemResource e.msg
  | IoErrorKind.NotADirectory => ProcessingError.DirectoryError e.msg
  | IoErrorKind.IsADirectory => ProcessingError.DirectoryError e.msg
  | _ => ProcessingError.IoError e.msg

/-! ## Analysis records (`src/models.rs`) -/

/-- `FileStats` from `models.rs`.  The `HashMap<char, usize>` of
character frequencies is embedded as an association list updated by
`incFreq` (insertion order irrelevant to the claims). -/
structure FileStats where
  word_count : Nat
  line_count : Nat
  char_frequencies : List (Char × Nat)
  size_bytes : Nat
  deriving DecidableEq, Repr

/-- `FileStats::new()`: all zeros, empty frequency map. -/
def FileStats.new : FileStats :=
  { word_count := 0, line_count := 0, char_frequencies := [], size_bytes := 0 }

/-- `*map.entry(c).or_insert(0) += 1` on the association-list embedding
of the frequency map. -/
def incFreq : List (Char × Nat) → Char → List (Char × Nat)
  | [], c => [(c, 1)]
  | (k, v) :: rest, c =>
      if k = c then (k, v + 1) :: rest else (k, v) :: incFreq rest c

/-- `FileAnalysis` from `models.rs`.  `processing_time` (wall-clock
elapsed time) is carried as an uninterpreted number. -/
structure FileAnalysis where
  filename : String
  stats : FileStats
  errors : List ProcessingError
  processing_time : Nat
  deriving DecidableEq, Repr

/-- `FileAnalysis::new(filename)`: default stats, no errors. -/
def FileAnalysis.new (filename : String) : FileAnalysis :=
  { filename := filename, stats := FileStats.new, errors := [], processing_time := 0 }

/-- `FileAnalysis::is_successful`. -/
def FileAnalysis.is_successful (a : FileAnalysis) : Bool :=
  a.errors.isEmpty

/-- `FileAnalysis::add_error`: push onto the `errors` sequence. -/
def FileAnalysis.add_error (a : FileAnalysis) (e : ProcessingError) : FileAnalysis :=
  { a with errors := a.errors ++ [e] }

/-! ## Per-file analysis (`src/file_processor.rs`) -/

/-- `line.split_whitespace()`: split on whitespace runs, dropping empty
segments. -/
def splitWhitespace (s : String) : List String :=
  (s.split Char.isWhitespace).filter (fun w => w ≠ "")

/-- The character-frequency loop of `calculate_stats`: alphabetic
characters are counted through their lowercase folding (modelled by
`Char.toLower`), every other character is counted as-is. -/
def countChars (chars : List Char) (m : List (Char × Nat)) : List (Char × Nat) :=
  chars.foldl
    (fun acc ch => if ch.isAlpha then incFreq acc ch.toLower else incFreq acc ch) m

/-- The `Ok(line_content)` branch of `calculate_stats`: bump
`line_count`, add the whitespace-separated word count, fold the
characters into the frequency map. -/
def processLine (content : String) (stats : FileStats) : FileStats :=
  { stats with
    line_count := stats.line_count + 1
    word_count := stats.word_count + (splitWhitespace content).length
    char_frequencies := countChars content.toList stats.char_frequencies }

/-- `const MAX_LINE_ERRORS: usize = 10` in `calculate_stats`. -/
def MAX_LINE_ERRORS : Nat := 10

/-- The message of the `CorruptedFile` error raised by `calculate_stats`
when too many consecutive line reads fail. -/
def corruptedMsg : String :=
  "Too many read errors (10+ errors, file may be corrupted)"

deriving instance DecidableEq for Except

/-- Outcome of `calculate_stats`: the statistics accumulated so far (the
`&mut FileStats` argument), the line numbers reported to the error sink
(`eprintln!` warnings), and the returned `ProcessingResult<()>`. -/
structure CalcResult where
  stats : FileStats
  warned : List Nat
  result : Except ProcessingError Unit
  deriving DecidableEq, Repr

/-- The loop of `FileAnalyzer::calculate_stats` over
`reader.lines().enumerate()`.  `lineNum` is the enumeration index,
`errCount` the consecutive-error counter, `warns` the warnings emitted
so far.  A successful read resets the counter to zero; a failed read
increments it, is reported while the counter is at most three, and
aborts the whole file with `CorruptedFile` once the counter exceeds
`MAX_LINE_ERRORS`. -/
def calcGo : List (Except IoErr String) → Nat → Nat → FileStats → List Nat → CalcResult
  | [], _, _, stats, warns => ⟨stats, warns, Except.ok ()⟩
  | Except.ok content :: rest, lineNum, _, stats, warns =>
      calcGo rest (lineNum + 1) 0 (processLine content stats) warns
  | Except.error _ :: rest, lineNum, errCount, stats, warns =>
      let ec := errCount + 1
      let warns' := if ec ≤ 3 then warns ++ [lineNum] else warns
      if MAX_LINE_ERRORS < ec then
        ⟨stats, warns', Except.error (ProcessingError.CorruptedFile corruptedMsg)⟩
      else
        calcGo rest (lineNum + 1) ec stats warns'

/-- `FileAnalyzer::calculate_stats(file, &mut stats)`: the file is the
lazy sequence of line-read outcomes. -/
def calculate_stats (lines : List (Except IoErr String)) (stats : FileStats) : CalcResult :=
  calcGo lines 0 0 stats []

/-- The parts of `fs::Metadata` the analyzer consults. -/
structure FileMetadata where
  isDir : Bool
  isFile : Bool
  len : Nat
  deriving DecidableEq, Repr

/-- A snapshot of what the OS reports about one path: the outcome of
`path.try_exists()`, of `fs::metadata(path)`, and of `File::open(path)`
(on success, the sequence of line-read outcomes the reader yields). -/
structure FsFile where
  tryExists : Except IoErr Bool
  metadata : Except IoErr FileMetadata
  openFile : Except IoErr (List (Except IoErr String))

/-- `validate_file_path` from `file_processor.rs`. -/
def validate_file_path (fs : FsFile) (path : String) : Except ProcessingError Unit :=
  if path = "" then
    Except.error (ProcessingError.InvalidPath "Empty file path")
  else
    match fs.tryExists with
    | Except.ok true =>
        match fs.metadata with
        | Except.ok metadata =>
            if metadata.isDir then
              Except.error (ProcessingError.DirectoryError
                ("Path is a directory, not a file: " ++ path))
            else
              Except.ok ()
        | Except.error e => Except.error (processingErrorFromIo e)
    | Except.ok false => Except.error (ProcessingError.FileNotFound path)
    | Except.error e => Except.error (processingErrorFromIo e)

/-- `FileAnalyzer::analyze_file`: validate the path, read the metadata
(rejecting non-regular files, recording `size_bytes`), open the file
and fold `calculate_stats` over it; every failure is appended to the
returned record's `errors` and the function returns `Ok` on every
path. -/
def analyze_file (fs : FsFile) (file_path : String) : Except ProcessingError FileAnalysis :=
  let analysis0 := FileAnalysis.new file_path
  match validate_file_path fs file_path with
  | Except.error e => Except.ok (analysis0.add_error e)
  | Except.ok () =>
    match fs.metadata with
    | Except.error e => Except.ok (analysis0.add_error (processingErrorFromIo e))
    | Except.ok metadata =>
      if !metadata.isFile then
        Except.ok (analysis0.add_error (ProcessingError.DirectoryError
          ("Path is not a regular file: " ++ file_path)))
      else
        let analysis1 :=
          { analysis0 with stats := { analysis0.stats with size_bytes := metadata.len } }
        match fs.openFile with
        | Except.ok lines =>
            match calculate_stats lines analysis1.stats with
            | ⟨stats', _, Except.ok ()⟩ => Except.ok { analysis1 with stats := stats' }
            | ⟨stats', _, Except.error e⟩ =>
                Except.ok ({ analysis1 with stats := stats' }.add_error e)
        | Except.error e => Except.ok (analysis1.add_error (processingErrorFromIo e))

/-! ## Progress tracking (`src/progress_tracker.rs`) -/

/-- `ProgressTracker` from `progress_tracker.rs`.  `start_time` (a
wall-clock instant) is not represented: no claim consults it. -/
structure ProgressTracker where
  completed_analyses : List FileAnalysis
  total_files : Nat
  files_completed : Nat
  total_errors : Nat
  errors_log : List String
  deriving DecidableEq, Repr

/-- `ProgressTracker::new()`. -/
def ProgressTracker.new : ProgressTracker :=
  { completed_analyses := [], total_files := 0, files_completed := 0
    total_errors := 0, errors_log := [] }

/-- `ProgressTracker::set_total_files`. -/
def ProgressTracker.set_total_files (t : ProgressTracker) (total : Nat) : ProgressTracker :=
  { t with total_files := total }

/-- `ProgressTracker::record_completion`: bump `files_completed`, add
the analysis's error count to `total_errors`, push one formatted
line per error onto `errors_log`, append the analysis. -/
def ProgressTracker.record_completion (t : ProgressTracker) (analysis : FileAnalysis) :
    ProgressTracker :=
  { t with
    files_completed := t.files_completed + 1
    total_errors := t.total_errors + analysis.errors.length
    errors_log := t.errors_log ++
      analysis.errors.map (fun e => analysis.filename ++ ": " ++ displayError e)
    completed_analyses := t.completed_analyses ++ [analysis] }

/-- The aggregate counters of `ProgressSummary` (the elapsed-time and
floating-point percentage fields are wall-clock derived and not
represented). -/
structure ProgressSummary where
  total_files : Nat
  files_completed : Nat
  total_errors : Nat
  deriving DecidableEq, Repr

/-- `ProgressTracker::get_summary`. -/
def ProgressTracker.get_summary (t : ProgressTracker) : ProgressSummary :=
  { total_files := t.total_files, files_completed := t.files_completed
    total_errors := t.total_errors }

/-- `ProgressTracker::get_completed_analyses`. -/
def ProgressTracker.get_completed_analyses (t : ProgressTracker) : List FileAnalysis :=
  t.completed_analyses

/-- `ProgressTracker::get_errors`. -/
def ProgressTracker.get_errors (t : ProgressTracker) : List String :=
  t.errors_log

/-- The two mutating operations a client can perform on a tracker. -/
inductive TrackerOp where
  | setTotalFiles (total : Nat)
  | recordCompletion (analysis : FileAnalysis)

/-- Apply one operation to a tracker. -/
def applyOp (t : ProgressTracker) : TrackerOp → ProgressTracker
  | TrackerOp.setTotalFiles total => t.set_total_files total
  | TrackerOp.recordCompletion analysis => t.record_completion analysis

/-- Run a sequence of operations on a fresh tracker. -/
def runOps (ops : List TrackerOp) : ProgressTracker :=
  ops.foldl applyOp ProgressTracker.new

/-- `SharedProgressTracker`: the `Arc<Mutex<ProgressTracker>>` wrapper.
The only observable fact about the mutex that the wrapper's code
branches on is whether `lock()` returned `Ok` or a poisoning error, so
the mutex is embedded as a `poisoned` flag. -/
structure SharedProgressTracker where
  poisoned : Bool
  tracker : ProgressTracker
  deriving DecidableEq, Repr

/-- `SharedProgressTracker::set_total_files`: `if let Ok(...) = lock()`
mutates, a poisoned lock silently skips. -/
def SharedProgressTracker.set_total_files (s : SharedProgressTracker) (total : Nat) :
    SharedProgressTracker :=
  if s.poisoned then s else { s with tracker := s.tracker.set_total_files total }

/-- `SharedProgressTracker::record_completion`, poisoning-aware. -/
def SharedProgressTracker.record_completion (s : SharedProgressTracker)
    (analysis : FileAnalysis) : SharedProgressTracker :=
  if s.poisoned then s else { s with tracker := s.tracker.record_completion analysis }

/-- `SharedProgressTracker::get_summary`: `lock().ok().map(...)`. -/
def SharedProgressTracker.get_summary (s : SharedProgressTracker) : Option ProgressSummary :=
  if s.poisoned then none else some s.tracker.get_summary

/-- `SharedProgressTracker::get_completed_analyses`, poisoning-aware. -/
def SharedProgressTracker.get_completed_analyses (s : SharedProgressTracker) :
    Option (List FileAnalysis) :=
  if s.poisoned then none else some s.tracker.get_completed_analyses

/-- `SharedProgressTracker::get_errors`, poisoning-aware. -/
def SharedProgressTracker.get_errors (s : SharedProgressTracker) : Option (List String) :=
  if s.poisoned then none else some s.tracker.get_errors

/-! ## Worker pool queue (`src/thread_pool.rs`) -/

/-- `Message` from `thread_pool.rs`; the type-erased boxed task is
carried as a value of an arbitrary type. -/
inductive Message (τ : Type) where
  | NewTask (task : τ)
  | Terminate
  deriving DecidableEq, Repr

/-- `ThreadPool::shutdown` as it acts on the queue: append exactly one
`Terminate` per worker at the tail (`queue.push` in a loop over
`0..num_workers`). -/
def shutdownQueue (τ : Type) (queue : List (Message τ)) (num_workers : Nat) :
    List (Message τ) :=
  queue ++ List.replicate num_workers (Message.Terminate)

/-- One worker's loop (`Worker::new`): repeatedly dequeue the head of
the queue (`queue.remove(0)`, FIFO); execute a `NewTask` payload and
continue; stop on `Terminate`.  Returns the tasks this worker executed,
in order, and the queue it leaves behind.  (On an empty queue the real
worker blocks on the condition variable; during shutdown the queue ends
in `Terminate` messages, so that case is left as a plain return.) -/
def workerRun (τ : Type) : List (Message τ) → List τ × List (Message τ)
  | [] => ([], [])
  | Message.NewTask task :: rest =>
      let r := workerRun τ rest
      (task :: r.1, r.2)
  | Message.Terminate :: rest => ([], rest)

/-- Run `n` workers one after another over the queue, collecting every
executed task (the serialized view of the pool: the mutex admits one
dequeuer at a time). -/
def runWorkers (τ : Type) : Nat → List (Message τ) → List τ × List (Message τ)
  | 0, queue => ([], queue)
  | n + 1, queue =>
      let r := workerRun τ queue
      let r' := runWorkers τ n r.2
      (r.1 ++ r'.1, r'.2)

/-! ## File discovery (`src/main_helper.rs`) -/

/-- A directory-walk view of the filesystem for
`discover_files_in_dir`: a regular file with the `Option` result of
`path.extension()`, a directory with its entries, or an entry whose
metadata call fails (skipped with a warning). -/
inductive FsEntry where
  | file (path : String) (extension : Option String)
  | dir (path : String) (entries : List FsEntry)
  | inaccessible (path : String)

mutual

/-- `discover_files_in_dir` acting on one entry: recurse into
directories; for a regular file, take `path.extension()` as-is
(`ext.to_string_lossy().to_string()`, no case fold) and keep the path
when `extensions.contains(&ext_str)`. -/
def discoverEntry (extensions : List String) : FsEntry → List String
  | FsEntry.file path (some ext_str) =>
      if extensions.contains ext_str then [path] else []
  | FsEntry.file _ none => []
  | FsEntry.dir _ entries => discoverEntries extensions entries
  | FsEntry.inaccessible _ => []

/-- `discover_files_in_dir` over a directory's entry list. -/
def discoverEntries (extensions : List String) : List FsEntry → List String
  | [] => []
  | e :: rest => discoverEntry extensions e ++ discoverEntries extensions rest

end

/-- The default extension whitelist of `ProcessorConfig::new`. -/
def defaultExtensions : List String := ["txt", "md"]

/-- Per-character lowercase fold of a string. -/
def lowerString (s : String) : String :=
  String.mk (s.data.map Char.toLower)

/-- Modelled from the spec: the extension filter the specification
describes, a case-insensitive match "via a lowercase fold of the
file's extension".  Stated only to compare with `discoverEntry`'s
filter. -/
def specSelectsFile (extensions : List String) (ext_str : String) : Bool :=
  extensions.contains (lowerString ext_str)

/-! ## Progress bar (`src/main_helper.rs`) -/

/-- The fill arithmetic of `format_progress_bar`: with `total == 0` the
bar is drawn fully filled; otherwise `percentage = completed / total *
100.0` truncated to an integer (`percentage as usize`, exact at the
inputs the theorems use), then `filled = (percentage as usize / 100) *
width` with integer division. -/
def format_progress_bar_filled (completed total width : Nat) : Nat :=
  if total = 0 then width
  else (100 * completed / total / 100) * width

/-- Modelled from the spec: the intended fill formula `(percentage /
100) · width` evaluated proportionally, i.e. `completed / total ·
width`, truncated to a whole cell count. -/
def intendedFilled (completed total width : Nat) : Nat :=
  if total = 0 then width
  else completed * width / total

/-! ## Theorems -/

/-- The three counting invariants of `ProgressTracker` are preserved by
any sequence of operations applied by `List.foldl`. -/
lemma foldl_applyOp_invariants (ops : List TrackerOp) :
    ∀ t : ProgressTracker,
      t.files_completed = t.completed_analyses.length →
      t.total_errors = (t.completed_analyses.map (fun a => a.errors.length)).sum →
      t.total_errors = t.errors_log.length →
      (ops.foldl applyOp t).files_completed =
          (ops.foldl applyOp t).completed_analyses.length ∧
        (ops.foldl applyOp t).total_errors =
          ((ops.foldl applyOp t).completed_analyses.map (fun a => a.errors.length)).sum ∧
        (ops.foldl applyOp t).total_errors = (ops.foldl applyOp t).errors_log.length := by
  induction ops with
  | nil => exact fun t h1 h2 h3 => ⟨h1, h2, h3⟩
  | cons op rest ih =>
      intro t h1 h2 h3
      rw [List.foldl_cons]
      cases op with
      | setTotalFiles total => exact ih _ h1 h2 h3
      | recordCompletion analysis =>
          refine ih _ ?_ ?_ ?_
          · simp [applyOp, ProgressTracker.record_completion, h1]
          · simp [applyOp, ProgressTracker.record_completion, h2]
          · simp [applyOp, ProgressTracker.record_completion, h3]

/-- C1: after every sequence of `set_total_files` and
`record_completion` operations on a fresh `ProgressTracker`,
`files_completed` equals the length of the completed-analyses sequence
and `total_errors` equals the sum of the lengths of the recorded
analyses' error sequences. -/
theorem tracker_counts_match_completed (ops : List TrackerOp) :
    (runOps ops).files_completed = (runOps ops).completed_analyses.length ∧
    (runOps ops).total_errors =
      ((runOps ops).completed_analyses.map (fun a => a.errors.length)).sum := by
  have h := foldl_applyOp_invariants ops ProgressTracker.new rfl rfl rfl
  exact ⟨h.1, h.2.1⟩

/-- C10: after every sequence of tracker operations, `total_errors`
equals the length of `errors_log`, because `record_completion` pushes
exactly one formatted line per error of the recorded analysis while
adding that analysis's error count to `total_errors`. -/
theorem tracker_total_errors_match_log (ops : List TrackerOp) :
    (runOps ops).total_errors = (runOps ops).errors_log.length :=
  (foldl_applyOp_invariants ops ProgressTracker.new rfl rfl rfl).2.2

/-- C8: when the tracker mutex is poisoned, both mutating operations of
the shared wrapper leave the state unchanged and all three readers
return `none` instead of panicking. -/
theorem poisoned_lock_skips_and_returns_none (s : SharedProgressTracker)
    (total : Nat) (analysis : FileAnalysis) (h : s.poisoned = true) :
    s.set_total_files total = s ∧
    s.record_completion analysis = s ∧
    s.get_summary = none ∧
    s.get_completed_analyses = none ∧
    s.get_errors = none := by
  simp [SharedProgressTracker.set_total_files, SharedProgressTracker.record_completion,
    SharedProgressTracker.get_summary, SharedProgressTracker.get_completed_analyses,
    SharedProgressTracker.get_errors, h]

/-- Witness for C8's theorem at a concrete poisoned state. -/
theorem poisoned_lock_skips_and_returns_none_witness :
    (SharedProgressTracker.mk true ProgressTracker.new).set_total_files 5 =
        SharedProgressTracker.mk true ProgressTracker.new ∧
    (SharedProgressTracker.mk true ProgressTracker.new).record_completion
        (FileAnalysis.new "a.txt") = SharedProgressTracker.mk true ProgressTracker.new ∧
    (SharedProgressTracker.mk true ProgressTracker.new).get_summary = none ∧
    (SharedProgressTracker.mk true ProgressTracker.new).get_completed_analyses = none ∧
    (SharedProgressTracker.mk true ProgressTracker.new).get_errors = none :=
  poisoned_lock_skips_and_returns_none
    (SharedProgressTracker.mk true ProgressTracker.new) 5 (FileAnalysis.new "a.txt") rfl

/-- C7: the conversion from an OS-level I/O error to a
`ProcessingError` follows the specification's table exactly, every
variant carrying the error's detail string; every category not listed
in the table maps to `IoError`. -/
theorem io_error_mapping_matches_table (msg : String) :
    processingErrorFromIo ⟨IoErrorKind.NotFound, msg⟩ = ProcessingError.FileNotFound msg ∧
    processingErrorFromIo ⟨IoErrorKind.PermissionDenied, msg⟩ =
      ProcessingError.PermissionDenied msg ∧
    processingErrorFromIo ⟨IoErrorKind.InvalidFilename, msg⟩ =
      ProcessingError.InvalidPath msg ∧
    processingErrorFromIo ⟨IoErrorKind.InvalidInput, msg⟩ = ProcessingError.InvalidPath msg ∧
    processingErrorFromIo ⟨IoErrorKind.InvalidData, msg⟩ = ProcessingError.CorruptedFile msg ∧
    processingErrorFromIo ⟨IoErrorKind.StorageFull, msg⟩ =
      ProcessingError.SystemResource msg ∧
    processingErrorFromIo ⟨IoErrorKind.OutOfMemory, msg⟩ =
      ProcessingError.SystemResource msg ∧
    processingErrorFromIo ⟨IoErrorKind.NotADirectory, msg⟩ =
      ProcessingError.DirectoryError msg ∧
    processingErrorFromIo ⟨IoErrorKind.IsADirectory, msg⟩ =
      ProcessingError.DirectoryError msg ∧
    ∀ k : IoErrorKind, k ≠ IoErrorKind.NotFound → k ≠ IoErrorKind.PermissionDenied →
      k ≠ IoErrorKind.InvalidFilename → k ≠ IoErrorKind.InvalidInput →
      k ≠ IoErrorKind.InvalidData → k ≠ IoErrorKind.StorageFull →
      k ≠ IoErrorKind.OutOfMemory → k ≠ IoErrorKind.NotADirectory →
      k ≠ IoErrorKind.IsADirectory →
      processingErrorFromIo ⟨k, msg⟩ = ProcessingError.IoError msg := by
  refine ⟨rfl, rfl, rfl, rfl, rfl, rfl, rfl, rfl, rfl, ?_⟩
  intro k h1 h2 h3 h4 h5 h6 h7 h8 h9
  cases k <;> first | rfl | simp_all

/-- Witness for C7's theorem: one listed row and one catch-all row at a
concrete message. -/
theorem io_error_mapping_matches_table_witness :
    processingErrorFromIo ⟨IoErrorKind.NotFound, "gone"⟩ =
        ProcessingError.FileNotFound "gone" ∧
    processingErrorFromIo ⟨IoErrorKind.Interrupted, "gone"⟩ =
        ProcessingError.IoError "gone" :=
  ⟨(io_error_mapping_matches_table "gone").1,
    (io_error_mapping_matches_table "gone").2.2.2.2.2.2.2.2.2 IoErrorKind.Interrupted
      (by decide) (by decide) (by decide) (by decide) (by decide) (by decide) (by decide)
      (by decide) (by decide)⟩

/-- C2: for every path and every behavior of the filesystem,
`analyze_file` returns an analysis record (`Ok`); no failure is
propagated as an error result. -/
theorem analyze_file_always_returns_analysis (fs : FsFile) (file_path : String) :
    ∃ analysis, analyze_file fs file_path = Except.ok analysis := by
  unfold analyze_file
  dsimp only
  repeat' split
  all_goals exact ⟨_, rfl⟩

/-- C9: the fill arithmetic of `format_progress_bar` truncates to zero
cells for every completion ratio below 100% (here 1/2 and 99/100 with
width 40), jumping to the full width only at 100%, whereas the intended
proportional formula gives the proportional cell count (20 of 40 at
1/2). -/
theorem format_progress_bar_truncates_fill :
    format_progress_bar_filled 1 2 40 = 0 ∧
    format_progress_bar_filled 99 100 40 = 0 ∧
    format_progress_bar_filled 2 2 40 = 40 ∧
    intendedFilled 1 2 40 = 20 := by decide

/-- C5: the discovery walk recurses into directories, but its extension
filter compares the extension string verbatim (no lowercase fold), so
under the default whitelist a file named `X.TXT` or `X.Md` is skipped
even though the specification's case-insensitive filter selects both. -/
theorem discovery_filter_is_case_sensitive :
    discoverEntries defaultExtensions
        [FsEntry.file "X.TXT" (some "TXT"), FsEntry.file "X.Md" (some "Md"),
          FsEntry.dir "sub" [FsEntry.file "sub/y.txt" (some "txt")]] = ["sub/y.txt"] ∧
    specSelectsFile defaultExtensions "TXT" = true ∧
    specSelectsFile defaultExtensions "Md" = true := by
  refine ⟨?_, by decide, by decide⟩
  simp [discoverEntries, discoverEntry, defaultExtensions]

/-- C6 counterexample: after validation and metadata succeed,
`analyze_file` records `size_bytes` from the metadata; when `File::open`
then fails, the returned record has a non-empty `errors` sequence and no
content was processed, yet its stats are NOT all-default:
`size_bytes` is 5, not 0. -/
theorem analyze_open_failure_nonzero_size_counterexample :
    analyze_file
        ⟨Except.ok true, Except.ok ⟨false, true, 5⟩,
          Except.error ⟨IoErrorKind.PermissionDenied, "open denied"⟩⟩ "f.txt"
      = Except.ok
          ⟨"f.txt", ⟨0, 0, [], 5⟩, [ProcessingError.PermissionDenied "open denied"], 0⟩ ∧
    (FileAnalysis.mk "f.txt" ⟨0, 0, [], 5⟩
        [ProcessingError.PermissionDenied "open denied"] 0).errors ≠ [] ∧
    (FileAnalysis.mk "f.txt" ⟨0, 0, [], 5⟩
        [ProcessingError.PermissionDenied "open denied"] 0).stats ≠ FileStats.new := by
  decide

/-- C6 (amended): on every totally-failing path of `analyze_file` the
returned record has a non-empty `errors` sequence and default stats,
except that when the failure happens at the open step (after metadata
succeeded on a regular file) `size_bytes` already holds the length
reported by the metadata. -/
theorem analyze_total_failure_default_stats (fs : FsFile) (file_path : String) :
    (∀ e, validate_file_path fs file_path = Except.error e →
      ∃ a, analyze_file fs file_path = Except.ok a ∧
        a.stats = FileStats.new ∧ a.errors ≠ []) ∧
    (∀ e, validate_file_path fs file_path = Except.ok () →
      fs.metadata = Except.error e →
      ∃ a, analyze_file fs file_path = Except.ok a ∧
        a.stats = FileStats.new ∧ a.errors ≠ []) ∧
    (∀ md, validate_file_path fs file_path = Except.ok () →
      fs.metadata = Except.ok md → md.isFile = false →
      ∃ a, analyze_file fs file_path = Except.ok a ∧
        a.stats = FileStats.new ∧ a.errors ≠ []) ∧
    (∀ md e, validate_file_path fs file_path = Except.ok () →
      fs.metadata = Except.ok md → md.isFile = true →
      fs.openFile = Except.error e →
      ∃ a, analyze_file fs file_path = Except.ok a ∧
        a.stats = { FileStats.new with size_bytes := md.len } ∧ a.errors ≠ []) := by
  refine ⟨?_, ?_, ?_, ?_⟩
  · intro e he
    refine ⟨(FileAnalysis.new file_path).add_error e, ?_, rfl, by
      simp [FileAnalysis.add_error]⟩
    simp [analyze_file, he]
  · intro e hv hm
    refine ⟨(FileAnalysis.new file_path).add_error (processingErrorFromIo e), ?_, rfl, by
      simp [FileAnalysis.add_error]⟩
    simp [analyze_file, hv, hm]
  · intro md hv hm hf
    refine ⟨(FileAnalysis.new file_path).add_error
      (ProcessingError.DirectoryError ("Path is not a regular file: " ++ file_path)),
      ?_, rfl, by simp [FileAnalysis.add_error]⟩
    simp [analyze_file, hv, hm, hf]
  · intro md e hv hm hf ho
    refine ⟨⟨file_path, ⟨0, 0, [], md.len⟩, [processingErrorFromIo e], 0⟩, ?_, rfl, by
      simp⟩
    simp [analyze_file, hv, hm, hf, ho, FileAnalysis.new, FileStats.new,
      FileAnalysis.add_error]

/-- Witness for C6's amended theorem: a missing file (validation fails
with `FileNotFound`) yields default stats and a non-empty error list. -/
theorem analyze_total_failure_default_stats_witness :
    ∃ a, analyze_file ⟨Except.ok false, Except.ok ⟨false, false, 0⟩, Except.ok []⟩
        "miss.txt" = Except.ok a ∧ a.stats = FileStats.new ∧ a.errors ≠ [] :=
  (analyze_total_failure_default_stats
      ⟨Except.ok false, Except.ok ⟨false, false, 0⟩, Except.ok []⟩ "miss.txt").1
    (ProcessingError.FileNotFound "miss.txt") (by decide)

/-- One error step of `calcGo` folded into the reported-warnings ledger:
entering a consecutive run at counter `c`, the failure at `lineNum` is
reported exactly when the incremented counter is at most three. -/
lemma warns_cons_step (c lineNum : Nat) (warns : List Nat) (j : Nat) :
    (if c + 1 ≤ 3 then warns ++ [lineNum] else warns) ++
        (List.range j).filterMap
          (fun i => if c + 1 + i < 3 then some (lineNum + 1 + i) else none)
      = warns ++ (List.range (j + 1)).filterMap
          (fun i => if c + i < 3 then some (lineNum + i) else none) := by
  have hfun : (fun i => if c + 1 + i < 3 then some (lineNum + 1 + i) else none)
      = fun i => if c + Nat.succ i < 3 then some (lineNum + Nat.succ i) else none := by
    funext i
    have h1 : c + 1 + i = c + Nat.succ i := by omega
    have h2 : lineNum + 1 + i = lineNum + Nat.succ i := by omega
    rw [h1, h2]
  rw [hfun, List.range_succ_eq_map, List.filterMap_cons, List.filterMap_map]
  by_cases hc3 : c < 3
  · rw [if_pos (by omega : c + 1 ≤ 3), if_pos (by omega : c + 0 < 3)]
    simp only [List.cons_append, List.append_assoc, List.singleton_append]
    rfl
  · rw [if_neg (by omega : ¬ c + 1 ≤ 3), if_neg (by omega : ¬ c + 0 < 3)]
    rfl

/-- A run of `j` failed reads entering at counter `c` with `c + j ≤ 10`,
followed by a successful read: the loop survives, the counter is back at
zero, the successful line is folded into the stats, and the failures at
run-offsets below `3 - c` were reported. -/
lemma calcGo_error_run (j : Nat) :
    ∀ c : Nat, c + j ≤ 10 →
      ∀ (e : IoErr) (content : String) (rest : List (Except IoErr String))
        (lineNum : Nat) (stats : FileStats) (warns : List Nat),
        calcGo (List.replicate j (Except.error e) ++ Except.ok content :: rest)
            lineNum c stats warns
          = calcGo rest (lineNum + j + 1) 0 (processLine content stats)
              (warns ++ (List.range j).filterMap
                (fun i => if c + i < 3 then some (lineNum + i) else none)) := by
  induction j with
  | zero =>
      intro c hc e content rest lineNum stats warns
      simp [calcGo]
  | succ j ih =>
      intro c hc e content rest lineNum stats warns
      rw [List.replicate_succ, List.cons_append]
      rw [calcGo]
      rw [if_neg (by simp [MAX_LINE_ERRORS]; omega)]
      rw [ih (c + 1) (by omega)]
      have harith : lineNum + 1 + j + 1 = lineNum + (j + 1) + 1 := by omega
      rw [harith]
      congr 1
      exact warns_cons_step c lineNum warns j

/-- A run of failed reads that brings the counter from `c` to 11 aborts
the file with a single `CorruptedFile` error, keeps the statistics
accumulated so far, reads nothing further, and reported only the
failures whose counter value was at most three. -/
lemma calcGo_all_errors (j : Nat) :
    ∀ c : Nat, c + j = 11 → 1 ≤ j →
      ∀ (e : IoErr) (rest : List (Except IoErr String)) (lineNum : Nat)
        (stats : FileStats) (warns : List Nat),
        calcGo (List.replicate j (Except.error e) ++ rest) lineNum c stats warns
          = ⟨stats,
              warns ++ (List.range j).filterMap
                (fun i => if c + i < 3 then some (lineNum + i) else none),
              Except.error (ProcessingError.CorruptedFile corruptedMsg)⟩ := by
  induction j with
  | zero => intro c hc h1; omega
  | succ j ih =>
      intro c hc h1 e rest lineNum stats warns
      rw [List.replicate_succ, List.cons_append]
      rw [calcGo]
      by_cases hj : j = 0
      · subst hj
        have hc10 : c = 10 := by omega
        subst hc10
        rw [if_pos (by simp [MAX_LINE_ERRORS])]
        rw [if_neg (by omega : ¬ (10 : Nat) + 1 ≤ 3)]
        simp
      · rw [if_neg (by simp [MAX_LINE_ERRORS]; omega)]
        rw [ih (c + 1) (by omega) (by omega)]
        congr 1
        exact warns_cons_step c lineNum warns j

/-- C3: in `calculate_stats`, eleven consecutive failed reads (the 11th
being the first to push the counter past `MAX_LINE_ERRORS = 10`) abandon
the file with a single `CorruptedFile` error while keeping the
statistics accumulated so far, with exactly the first three failures of
the run reported to the error sink; and a run of at most ten failures
followed by a successful read is survived, the success resetting the
consecutive counter to zero, again with only the first three failures
of the run reported. -/
theorem line_error_tolerance (j : Nat) (hj : j ≤ 10) (e : IoErr) (content : String)
    (rest : List (Except IoErr String)) (lineNum : Nat) (stats : FileStats)
    (warns : List Nat) :
    calcGo (List.replicate 11 (Except.error e) ++ rest) lineNum 0 stats warns
      = ⟨stats, warns ++ [lineNum, lineNum + 1, lineNum + 2],
          Except.error (ProcessingError.CorruptedFile corruptedMsg)⟩ ∧
    calcGo (List.replicate j (Except.error e) ++ Except.ok content :: rest)
        lineNum 0 stats warns
      = calcGo rest (lineNum + j + 1) 0 (processLine content stats)
          (warns ++ (List.range j).filterMap
            (fun i => if i < 3 then some (lineNum + i) else none)) := by
  constructor
  · have h := calcGo_all_errors 11 0 rfl (by omega) e rest lineNum stats warns
    rw [h]
    congr 1
  · have h := calcGo_error_run j 0 (by omega) e content rest lineNum stats warns
    simpa using h

/-- Witness for C3's theorem: a run of four failed reads followed by one
successful read, starting from a fresh state. -/
theorem line_error_tolerance_witness :
    (4 : Nat) ≤ 10 ∧
    (calcGo (List.replicate 11 (Except.error ⟨IoErrorKind.OtherKind, "bad"⟩) ++ [])
        0 0 FileStats.new []
      = ⟨FileStats.new, [0, 1, 2],
          Except.error (ProcessingError.CorruptedFile corruptedMsg)⟩ ∧
    calcGo (List.replicate 4 (Except.error ⟨IoErrorKind.OtherKind, "bad"⟩) ++
        Except.ok "w x" :: []) 0 0 FileStats.new []
      = calcGo [] (0 + 4 + 1) 0 (processLine "w x" FileStats.new)
          ([] ++ (List.range 4).filterMap
            (fun i => if i < 3 then some (0 + i) else none))) :=
  ⟨by decide, line_error_tolerance 4 (by decide) ⟨IoErrorKind.OtherKind, "bad"⟩ "w x"
    [] 0 FileStats.new []⟩

/-- A worker facing a queue of pending tasks followed by a `Terminate`
executes every task in order, then consumes the `Terminate`. -/
lemma workerRun_map_newTask (τ : Type) (tasks : List τ) (rest : List (Message τ)) :
    workerRun τ (tasks.map Message.NewTask ++ Message.Terminate :: rest)
      = (tasks, rest) := by
  induction tasks with
  | nil => simp [workerRun]
  | cons t ts ih => simp [workerRun, ih]

/-- `n` workers consume `n` `Terminate` messages and leave the queue
empty, executing nothing. -/
lemma runWorkers_replicate_terminate (τ : Type) (n : Nat) :
    runWorkers τ n (List.replicate n (Message.Terminate)) = ([], []) := by
  induction n with
  | zero => simp [runWorkers]
  | succ n ih => simp [List.replicate_succ, runWorkers, workerRun, ih]

/-- C4: `shutdown` appends exactly `size` `Terminate` messages at the
tail of the queue, leaving the prefix untouched; because workers remove
messages from the head, the first worker to drain a queue of pending
`NewTask` messages executes all of them, in order, before any
`Terminate` is consumed; and running all `size` workers executes every
pending task and empties the queue. -/
theorem shutdown_drains_pending_before_terminate (τ : Type) (tasks : List τ)
    (size : Nat) (h : 0 < size) :
    (∀ queue : List (Message τ),
        (shutdownQueue τ queue size).take queue.length = queue ∧
        (shutdownQueue τ queue size).drop queue.length =
          List.replicate size (Message.Terminate)) ∧
    workerRun τ (shutdownQueue τ (tasks.map Message.NewTask) size)
      = (tasks, List.replicate (size - 1) (Message.Terminate)) ∧
    runWorkers τ size (shutdownQueue τ (tasks.map Message.NewTask) size)
      = (tasks, []) := by
  obtain ⟨k, rfl⟩ : ∃ k, size = k + 1 := ⟨size - 1, by omega⟩
  refine ⟨fun queue => ⟨?_, ?_⟩, ?_, ?_⟩
  · simp [shutdownQueue]
  · simp [shutdownQueue]
  · rw [shutdownQueue, List.replicate_succ, workerRun_map_newTask]
    simp
  · rw [shutdownQueue, List.replicate_succ]
    show runWorkers τ (k + 1) _ = _
    rw [runWorkers]
    rw [workerRun_map_newTask]
    simp [runWorkers_replicate_terminate]

/-- Witness for C4's theorem: two tasks pending, two workers. -/
theorem shutdown_drains_pending_before_terminate_witness :
    (0 : Nat) < 2 ∧
    ((∀ queue : List (Message Nat),
        (shutdownQueue Nat queue 2).take queue.length = queue ∧
        (shutdownQueue Nat queue 2).drop queue.length =
          List.replicate 2 (Message.Terminate)) ∧
    workerRun Nat (shutdownQueue Nat ([3, 4].map Message.NewTask) 2)
      = ([3, 4], List.replicate (2 - 1) (Message.Terminate)) ∧
    runWorkers Nat 2 (shutdownQueue Nat ([3, 4].map Message.NewTask) 2)
      = ([3, 4], [])) :=
  ⟨by decide, shutdown_drains_pending_before_terminate Nat [3, 4] 2 (by decide)⟩
